import Mathlib

/-!
# Verification of the EWMA volatility-targeting overlay

Shallow embedding of `src/run_aapl_ewma_voltarget.py`, the signal-construction
and backtest-simulation engine: EWMA realized-volatility estimation, trend
filtering, a volatility-regime gate, leverage capping, turnover-cost
accounting, and the KPI computation (CAGR, AnnVol, Sharpe, MaxDD, Calmar).

Modelling conventions:
- IEEE-754 double arithmetic is modelled by exact real arithmetic (`ℝ`).
- A float `NaN` used by the script as an "undefined" sentinel is modelled by
  `Option ℝ` with `none` for `NaN`; pandas operations that skip or fill `NaN`
  are modelled on the `Option` layer at the point where the script fills or
  skips them.
- pandas `Series.clip(lower, upper)` applies the lower bound first and the
  upper bound second, i.e. `min (max x lo) hi`.
- The script's `DataFrame` after the two `dropna` calls is modelled by a
  `Frame` (the three raw aligned columns) together with the index shift by
  one row: frame row `t` corresponds to raw aligned row `t + 1`, because the
  second `dropna` removes the first row, whose `pct_change` return is `NaN`.
-/

namespace VolTarget

open Classical

/-- pandas/numpy `clip(x, lower=lo, upper=hi)`: lower bound applied first,
then the upper bound (`min (max x lo) hi`). -/
noncomputable def clip (x lo hi : ℝ) : ℝ := min (max x lo) hi

/-- The strategy parameters, set as literals in `main`
(lines 88-96 of `run_aapl_ewma_voltarget.py`). -/
structure Params where
  lookback_vol : ℕ
  target_vol : ℝ
  lev_cap : ℝ
  sma_window : ℕ
  sma_band : ℝ
  vix_cut : ℝ
  vix_width : ℝ
  cost_bps : ℝ

/-- The literal parameter values assigned in `main`:
`lookback_vol = 20`, `target_vol = 0.40`, `lev_cap = 1.3`, `sma_window = 20`,
`sma_band = -0.02`, `vix_cut = 35.0`, `vix_width = 10.0`, `cost_bps = 1.0`. -/
noncomputable def defaultParams : Params :=
  { lookback_vol := 20
    target_vol := 0.40
    lev_cap := 1.3
    sma_window := 20
    sma_band := -0.02
    vix_cut := 35.0
    vix_width := 10.0
    cost_bps := 1.0 }

/-- The aligned raw frame after `pd.concat`, `ffill` and the first `dropna`:
`n` rows, each with a close price, a VIX level and a US2Y yield (percent).
All three columns are `NaN`-free at this point. -/
structure Frame where
  n : ℕ
  close : ℕ → ℝ
  vix : ℕ → ℝ
  us2y : ℕ → ℝ

/-- Daily simple return at frame row `t` (raw row `t + 1`):
`df["ret"] = df["aapl_close"].pct_change()`, i.e.
`close (t+1) / close t - 1`.  The raw row `0`, whose return is `NaN`, is
removed by the second `dropna`, which is why frame row `t` reads raw rows
`t + 1` and `t`. -/
noncomputable def ret (f : Frame) (t : ℕ) : ℝ := f.close (t + 1) / f.close t - 1

/-- Daily risk-free rate at frame row `t`:
`df["rf_daily"] = (df["us2y_yield"] / 100.0) / 252.0`. -/
noncomputable def rfDaily (f : Frame) (t : ℕ) : ℝ := f.us2y (t + 1) / 100 / 252

/-- Close price at frame row `t` (raw row `t + 1`). -/
noncomputable def closeF (f : Frame) (t : ℕ) : ℝ := f.close (t + 1)

/-- VIX level at frame row `t` (raw row `t + 1`). -/
noncomputable def vixF (f : Frame) (t : ℕ) : ℝ := f.vix (t + 1)

/-- Number of rows of the simulated frame: the second `dropna` removes one
row from the `n` aligned rows. -/
def frameLen (f : Frame) : ℕ := f.n - 1

/-- Trailing moving-average value used by
`df["sma20"] = df["aapl_close"].rolling(sma_window).mean()` at frame row `t`,
meaningful only when the trailing window is complete (`sma_window ≤ t + 1`);
`trendOk` guards every use by exactly that condition, mirroring the `NaN`
produced by `rolling` on an incomplete window. -/
noncomputable def sma (p : Params) (f : Frame) (t : ℕ) : ℝ :=
  (∑ j ∈ Finset.range p.sma_window, closeF f (t - j)) / p.sma_window

/-- Trend filter
`df["trend_ok"] = (df["aapl_close"] > (1.0 + sma_band) * df["sma20"]).astype(float)`.
On an incomplete window `sma20` is `NaN`, the pandas comparison `NaN`-row
yields `False`, and `astype(float)` stores `0.0`; hence the completeness
conjunct. -/
noncomputable def trendOk (p : Params) (f : Frame) (t : ℕ) : ℝ :=
  if p.sma_window ≤ t + 1 ∧ (1 + p.sma_band) * sma p f t < closeF f t then 1 else 0

/-- The EWMA smoothing factor `alpha = 2.0 / (lookback_vol + 1.0)`. -/
noncomputable def alphaOf (p : Params) : ℝ := 2 / ((p.lookback_vol : ℝ) + 1)

/-- `df["ewma_var"] = (df["ret"]**2).ewm(alpha=alpha, adjust=False).mean()`.
With `adjust=False` pandas seeds the series at the first observation and then
applies `y t = alpha * x t + (1 - alpha) * y (t-1)` with `x t = (ret t)^2`. -/
noncomputable def ewmaVar (p : Params) (f : Frame) : ℕ → ℝ
  | 0 => ret f 0 ^ 2
  | t + 1 => alphaOf p * ret f (t + 1) ^ 2 + (1 - alphaOf p) * ewmaVar p f t

/-- Annualized volatility estimate `np.sqrt(252.0 * df["ewma_var"])`.
The script continues with `.replace(0, np.nan)`; that sentinel substitution
only feeds the `NaN`-to-`0` fill of `wRaw` and is modelled there by the
`volHatAnn = 0` branch. -/
noncomputable def volHatAnn (p : Params) (f : Frame) (t : ℕ) : ℝ :=
  Real.sqrt (252 * ewmaVar p f t)

/-- Raw weight
`df["w_raw"] = (target_vol / df["vol_hat_ann"]).clip(lower=0.0, upper=lev_cap).fillna(0.0)`
where `vol_hat_ann` had `0` replaced by `NaN`: a zero volatility estimate
makes the ratio `NaN`, `clip` keeps `NaN`, and `fillna` stores `0.0` — the
first branch below.  Otherwise the clipped ratio is stored. -/
noncomputable def wRaw (p : Params) (f : Frame) (t : ℕ) : ℝ :=
  if volHatAnn p f t = 0 then 0
  else clip (p.target_vol / volHatAnn p f t) 0 p.lev_cap

/-- The volatility-regime gate as a function of the VIX level:
`(1.0 - (v - vix_cut) / vix_width).clip(lower=0.0, upper=1.0)`. -/
noncomputable def gateFun (p : Params) (v : ℝ) : ℝ :=
  clip (1 - (v - p.vix_cut) / p.vix_width) 0 1

/-- `df["g_vix"] = (1.0 - (df["vix"] - vix_cut) / vix_width).clip(0.0, 1.0)`. -/
noncomputable def gVix (p : Params) (f : Frame) (t : ℕ) : ℝ := gateFun p (vixF f t)

/-- Composite weight
`df["w"] = (df["w_raw"] * df["trend_ok"] * df["g_vix"]).clip(lower=0.0, upper=lev_cap)`. -/
noncomputable def w (p : Params) (f : Frame) (t : ℕ) : ℝ :=
  clip (wRaw p f t * trendOk p f t * gVix p f t) 0 p.lev_cap

/-- `w_prev = df["w"].shift(1).fillna(0.0)`: the weight decided the previous
day, `0` before the first frame row. -/
noncomputable def wPrev (p : Params) (f : Frame) : ℕ → ℝ
  | 0 => 0
  | t + 1 => w p f t

/-- `gross = w_prev * df["ret"] + (1.0 - w_prev) * df["rf_daily"]`. -/
noncomputable def gross (p : Params) (f : Frame) (t : ℕ) : ℝ :=
  wPrev p f t * ret f t + (1 - wPrev p f t) * rfDaily f t

/-- `turnover = (df["w"] - w_prev).abs()`. -/
noncomputable def turnover (p : Params) (f : Frame) (t : ℕ) : ℝ :=
  |w p f t - wPrev p f t|

/-- `cost = (cost_bps / 10000.0) * turnover`. -/
noncomputable def cost (p : Params) (f : Frame) (t : ℕ) : ℝ :=
  p.cost_bps / 10000 * turnover p f t

/-- `df["strat_ret"] = gross - cost`. -/
noncomputable def stratRet (p : Params) (f : Frame) (t : ℕ) : ℝ :=
  gross p f t - cost p f t

/-! ## Performance evaluator (`kpis`, lines 36-59) -/

/-- Arithmetic mean of a series, `Series.mean()`. -/
noncomputable def mean (r : List ℝ) : ℝ := r.sum / r.length

/-- Sample variance with `ddof = 1` (the pandas default for `Series.std()`):
sum of squared deviations divided by `n - 1`. -/
noncomputable def sampleVar (r : List ℝ) : ℝ :=
  (r.map (fun x => (x - mean r) ^ 2)).sum / ((r.length : ℝ) - 1)

/-- pandas `Series.std()` (sample standard deviation, `ddof = 1`): `NaN`
(modelled as `none`) for fewer than two observations, because the divisor
`n - 1` is `0` and `0 / 0` is `NaN` in IEEE arithmetic. -/
noncomputable def sampleStd (r : List ℝ) : Option ℝ :=
  if r.length < 2 then none else some (Real.sqrt (sampleVar r))

/-- `(1.0 + r).prod()`. -/
noncomputable def growth (r : List ℝ) : ℝ := (r.map (fun x => 1 + x)).prod

/-- `ann_ret = (1.0 + r).prod() ** (252.0 / len(r)) - 1.0` for a non-empty
series.  numpy float exponentiation of a negative base by a non-integer
exponent is `NaN` (modelled as `none`); `252.0 / len(r)` is an integer float
exactly when `len(r)` divides `252`, and for an integer exponent numpy's
power of a negative base agrees with `Real.rpow`. -/
noncomputable def annRet (r : List ℝ) : Option ℝ :=
  if growth r < 0 ∧ ¬ r.length ∣ 252 then none
  else some (Real.rpow (growth r) (252 / (r.length : ℝ)) - 1)

/-- Excess-return series: `ex = r` when no risk-free series is passed, else
`ex = (r - rf.loc[r.index]).dropna()`, the row-wise difference on the shared
index. -/
def excess (r : List ℝ) (rf : Option (List ℝ)) : List ℝ :=
  match rf with
  | none => r
  | some q => List.zipWith (fun a b => a - b) r q

/-- Equity curve `eq = (1.0 + r).cumprod()` at index `i`. -/
noncomputable def eqAt (r : List ℝ) (i : ℕ) : ℝ := growth (r.take (i + 1))

/-- Running maximum `eq.cummax()` at index `i`. -/
noncomputable def runMax (r : List ℝ) : ℕ → ℝ
  | 0 => eqAt r 0
  | i + 1 => max (runMax r i) (eqAt r (i + 1))

/-- Drawdown `dd = eq / eq.cummax() - 1.0` at index `i`.  When the running
maximum is `0` the equity there is also `0` (the curve is stuck at `0` after
a `-100 %` return), so the float quotient is `0 / 0 = NaN`, modelled as
`none`. -/
noncomputable def ddAt (r : List ℝ) (i : ℕ) : Option ℝ :=
  if runMax r i = 0 then none else some (eqAt r i / runMax r i - 1)

/-- The defined (non-`NaN`) drawdown entries, in index order. -/
noncomputable def ddList (r : List ℝ) : List ℝ :=
  (List.range r.length).filterMap (ddAt r)

/-- Minimum of a list of reals, `none` for the empty list; `dd.min()` skips
`NaN` entries and returns `NaN` when every entry is `NaN`. -/
noncomputable def listMin : List ℝ → Option ℝ
  | [] => none
  | x :: xs =>
    match listMin xs with
    | none => some x
    | some m => some (min x m)

/-- `maxdd = dd.min()`. -/
noncomputable def maxDD (r : List ℝ) : Option ℝ := listMin (ddList r)

/-- `sharpe = (ex.mean() / r.std()) * np.sqrt(252.0) if r.std() > 0 else np.nan`.
A `NaN` standard deviation (fewer than two observations) fails the `> 0`
test, so the `else` branch also fires then. -/
noncomputable def sharpeOf (r : List ℝ) (rf : Option (List ℝ)) : Option ℝ :=
  (sampleStd r).bind fun s =>
    if 0 < s then some (mean (excess r rf) / s * Real.sqrt 252) else none

/-- `calmar = ann_ret / abs(maxdd) if maxdd < 0 else np.nan`.  A `NaN`
`maxdd` fails the `< 0` test; a `NaN` `ann_ret` propagates through the
division. -/
noncomputable def calmarOf (r : List ℝ) : Option ℝ :=
  (maxDD r).bind fun m =>
    if m < 0 then (annRet r).map (fun a => a / |m|) else none

/-- The fixed-shape KPI record returned by `kpis`; `none` models a `NaN`
entry. -/
structure KPI where
  cagr : Option ℝ
  annVol : Option ℝ
  sharpe : Option ℝ
  maxdd : Option ℝ
  calmar : Option ℝ

/-- The `kpis` function.  Its input is already `dropna`-ed.  On an empty
series the expression `252.0 / len(r)` raises `ZeroDivisionError` (a Python
`float / int-zero` division), so no record is produced: modelled by `none`. -/
noncomputable def kpis (r : List ℝ) (rf : Option (List ℝ)) : Option KPI :=
  if r.length = 0 then none
  else some
    { cagr := annRet r
      annVol := (sampleStd r).map (fun s => s * Real.sqrt 252)
      sharpe := sharpeOf r rf
      maxdd := maxDD r
      calmar := calmarOf r }

/-! ## Baseline constructor (lines 122-127) -/

/-- The simulated strategy-return column as a series over the frame rows. -/
noncomputable def stratRetList (p : Params) (f : Frame) : List ℝ :=
  (List.range (frameLen f)).map (stratRet p f)

/-- The buy-and-hold return column `df["bh_ret"] = df["ret"]` as a series. -/
noncomputable def bhRetList (f : Frame) : List ℝ :=
  (List.range (frameLen f)).map (ret f)

/-- `bh_vol = df["bh_ret"].std() * np.sqrt(252.0)`. -/
noncomputable def bhVol (f : Frame) : Option ℝ :=
  (sampleStd (bhRetList f)).map (fun s => s * Real.sqrt 252)

/-- `strat_vol = df["strat_ret"].std() * np.sqrt(252.0)`. -/
noncomputable def stratVolOf (p : Params) (f : Frame) : Option ℝ :=
  (sampleStd (stratRetList p f)).map (fun s => s * Real.sqrt 252)

/-- `w_bh = float(np.clip(strat_vol / bh_vol if bh_vol > 0 else 1.0, 0.0, 3.0))`
as a function of the two annualized volatilities.  A `NaN` `bh_vol` (`none`)
fails the `> 0` test and yields the default `1` (then `clip(1, 0, 3) = 1`).
The `some, none` case cannot arise from the script (both series share the
frame index, so their standard deviations are defined together); it is mapped
to the same default. -/
noncomputable def wBhAux : Option ℝ → Option ℝ → ℝ
  | some b, some s => if 0 < b then clip (s / b) 0 3 else 1
  | some _, none => 1
  | none, _ => 1

/-- The volatility-matching scale factor of the run. -/
noncomputable def wBh (p : Params) (f : Frame) : ℝ :=
  wBhAux (bhVol f) (stratVolOf p f)

/-- `df["bh_vm_ret"] = w_bh * df["ret"] + (1.0 - w_bh) * df["rf_daily"]`. -/
noncomputable def bhVmRet (p : Params) (f : Frame) (t : ℕ) : ℝ :=
  wBh p f * ret f t + (1 - wBh p f) * rfDaily f t

/-! ## Shared helper lemmas and a concrete input -/

/-- A concrete aligned frame: three raw rows of constant price `100`,
VIX `20`, US2Y yield `4 %`; the simulated frame has two rows. -/
noncomputable def testFrame : Frame :=
  { n := 3, close := fun _ => 100, vix := fun _ => 20, us2y := fun _ => 4 }

lemma testFrame_close_const : ∀ i, testFrame.close i = 100 := fun _ => rfl

lemma clip_nonneg {x hi : ℝ} (hhi : 0 ≤ hi) : 0 ≤ clip x 0 hi :=
  le_min (le_max_right _ _) hhi

lemma clip_le_hi (x lo hi : ℝ) : clip x lo hi ≤ hi := min_le_right _ _

lemma clip_zero {hi : ℝ} (hhi : 0 ≤ hi) : clip 0 0 hi = 0 := by
  rw [clip, max_self, min_eq_left hhi]

lemma ret_const {f : Frame} {c : ℝ} (hc : c ≠ 0) (h : ∀ i, f.close i = c)
    (t : ℕ) : ret f t = 0 := by
  rw [ret, h, h, div_self hc, sub_self]

lemma ewmaVar_const {p : Params} {f : Frame} (hr : ∀ t, ret f t = 0) :
    ∀ t, ewmaVar p f t = 0
  | 0 => by rw [ewmaVar, hr]; ring
  | t + 1 => by rw [ewmaVar, hr, ewmaVar_const hr t]; ring

lemma volHatAnn_zero_of_var {p : Params} {f : Frame} {t : ℕ}
    (h : ewmaVar p f t = 0) : volHatAnn p f t = 0 := by
  rw [volHatAnn, h, mul_zero, Real.sqrt_zero]

lemma wRaw_zero_of_var {p : Params} {f : Frame} {t : ℕ}
    (h : ewmaVar p f t = 0) : wRaw p f t = 0 := by
  rw [wRaw, if_pos (volHatAnn_zero_of_var h)]

lemma w_zero_of_wRaw {p : Params} {f : Frame} {t : ℕ} (hcap : 0 ≤ p.lev_cap)
    (h : wRaw p f t = 0) : w p f t = 0 := by
  rw [w, h, zero_mul, zero_mul, clip_zero hcap]

lemma wPrev_zero {p : Params} {f : Frame} (hw : ∀ t, w p f t = 0) :
    ∀ t, wPrev p f t = 0
  | 0 => rfl
  | t + 1 => hw t

lemma stratRet_eq_rf {p : Params} {f : Frame} (hw : ∀ t, w p f t = 0)
    (t : ℕ) : stratRet p f t = rfDaily f t := by
  rw [stratRet, gross, cost, turnover, wPrev_zero hw, hw]
  norm_num

lemma testFrame_ret (t : ℕ) : ret testFrame t = 0 :=
  ret_const (by norm_num) testFrame_close_const t

lemma testFrame_w (t : ℕ) : w defaultParams testFrame t = 0 :=
  w_zero_of_wRaw (by norm_num [defaultParams])
    (wRaw_zero_of_var (ewmaVar_const testFrame_ret t))

lemma testFrame_stratRet (t : ℕ) :
    stratRet defaultParams testFrame t = rfDaily testFrame t :=
  stratRet_eq_rf testFrame_w t

lemma testFrame_rf (t : ℕ) : rfDaily testFrame t = 1 / 6300 := by
  rw [rfDaily]; norm_num [testFrame]

/-! ## Claim theorems -/

/-- C1: for every date `t`, the composite weight lies in the closed interval
from `0` to `leverage_cap`, and it is `0` whenever the trend filter is `0` or
the volatility-regime gate is `0` (for a non-negative leverage cap, as the
shipped `lev_cap = 1.3` is). -/
theorem composite_weight_bounds (p : Params) (f : Frame) (t : ℕ)
    (hcap : 0 ≤ p.lev_cap) :
    (0 ≤ w p f t ∧ w p f t ≤ p.lev_cap) ∧
    (trendOk p f t = 0 → w p f t = 0) ∧
    (gVix p f t = 0 → w p f t = 0) := by
  refine ⟨⟨clip_nonneg hcap, clip_le_hi _ _ _⟩, fun h => ?_, fun h => ?_⟩
  · rw [w, h, mul_zero, zero_mul, clip_zero hcap]
  · rw [w, h, mul_zero, clip_zero hcap]

/-- C1 witness: the theorem applied to the shipped parameters, the concrete
`testFrame` and `t = 0`. -/
theorem composite_weight_bounds_witness :
    0 ≤ defaultParams.lev_cap ∧
    0 ≤ w defaultParams testFrame 0 ∧
    w defaultParams testFrame 0 ≤ defaultParams.lev_cap :=
  ⟨by norm_num [defaultParams],
   (composite_weight_bounds defaultParams testFrame 0
      (by norm_num [defaultParams])).1.1,
   (composite_weight_bounds defaultParams testFrame 0
      (by norm_num [defaultParams])).1.2⟩

/-- C4: the simulator computes
`strat_ret t = w_prev t * r t + (1 - w_prev t) * rf t
             - cost_bps / 10000 * abs (w t - w_prev t)`
with `w_prev t = w (t-1)` and the weight preceding the first date treated as
`0` (no lookahead). -/
theorem strat_ret_formula (p : Params) (f : Frame) :
    wPrev p f 0 = 0 ∧
    (∀ t, wPrev p f (t + 1) = w p f t) ∧
    (∀ t, stratRet p f t =
      wPrev p f t * ret f t + (1 - wPrev p f t) * rfDaily f t -
        p.cost_bps / 10000 * |w p f t - wPrev p f t|) :=
  ⟨rfl, fun _ => rfl, fun _ => rfl⟩

/-- C6: the EWMA variance satisfies the recurrence
`ewma_var (t+1) = alpha * r (t+1) ^ 2 + (1 - alpha) * ewma_var t` with
`alpha = 2 / (lookback_vol + 1)`, seeded at `ewma_var t0 = r t0 ^ 2`, and
`vol_hat_ann t = sqrt (252 * ewma_var t)`. -/
theorem ewma_recurrence (p : Params) (f : Frame) :
    alphaOf p = 2 / ((p.lookback_vol : ℝ) + 1) ∧
    ewmaVar p f 0 = ret f 0 ^ 2 ∧
    (∀ t, ewmaVar p f (t + 1) =
      alphaOf p * ret f (t + 1) ^ 2 + (1 - alphaOf p) * ewmaVar p f t) ∧
    (∀ t, volHatAnn p f t = Real.sqrt (252 * ewmaVar p f t)) :=
  ⟨rfl, rfl, fun _ => rfl, fun _ => rfl⟩

/-- C7: on a constant price series (all returns `0`) the pipeline yields
`vol_hat_ann t = 0`, `w_raw t = 0` and `w t = 0` for every `t`, hence
`strat_ret t = rf t`: the strategy sits fully in the risk-free asset. -/
theorem const_price_riskfree (p : Params) (f : Frame) (c : ℝ)
    (hcap : 0 ≤ p.lev_cap) (hc : c ≠ 0) (hconst : ∀ i, f.close i = c)
    (t : ℕ) :
    volHatAnn p f t = 0 ∧ wRaw p f t = 0 ∧ w p f t = 0 ∧
      stratRet p f t = rfDaily f t := by
  have hr : ∀ s, ret f s = 0 := ret_const hc hconst
  have hv : ∀ s, ewmaVar p f s = 0 := ewmaVar_const hr
  have hw0 : ∀ s, w p f s = 0 :=
    fun s => w_zero_of_wRaw hcap (wRaw_zero_of_var (hv s))
  exact ⟨volHatAnn_zero_of_var (hv t), wRaw_zero_of_var (hv t), hw0 t,
    stratRet_eq_rf hw0 t⟩

/-- C7 witness: the theorem applied to the shipped parameters and the
constant-price `testFrame` at `t = 1`. -/
theorem const_price_riskfree_witness :
    0 ≤ defaultParams.lev_cap ∧ (100 : ℝ) ≠ 0 ∧
    w defaultParams testFrame 1 = 0 ∧
    stratRet defaultParams testFrame 1 = rfDaily testFrame 1 :=
  ⟨by norm_num [defaultParams], by norm_num,
   (const_price_riskfree defaultParams testFrame 100
      (by norm_num [defaultParams]) (by norm_num) testFrame_close_const 1).2.2.1,
   (const_price_riskfree defaultParams testFrame 100
      (by norm_num [defaultParams]) (by norm_num) testFrame_close_const 1).2.2.2⟩

/-- C5: with `vix_width > 0` the volatility-regime gate is a non-increasing
piecewise-linear function of the VIX level with values in the unit interval:
it is `1` for every level at or below `vix_cut` and `0` for every level at or
above `vix_cut + vix_width`; `g_vix` is that function applied to the VIX
column. -/
theorem vix_gate_shape (p : Params) (hw : 0 < p.vix_width) :
    (∀ (f : Frame) (t : ℕ), gVix p f t = gateFun p (vixF f t)) ∧
    (∀ v : ℝ, 0 ≤ gateFun p v ∧ gateFun p v ≤ 1) ∧
    (∀ v : ℝ, v ≤ p.vix_cut → gateFun p v = 1) ∧
    (∀ v : ℝ, p.vix_cut + p.vix_width ≤ v → gateFun p v = 0) ∧
    (∀ v₁ v₂ : ℝ, v₁ ≤ v₂ → gateFun p v₂ ≤ gateFun p v₁) := by
  refine ⟨fun f t => rfl,
    fun v => ⟨clip_nonneg zero_le_one, clip_le_hi _ _ _⟩,
    fun v hv => ?_, fun v hv => ?_, fun v₁ v₂ h12 => ?_⟩
  · have hq : (v - p.vix_cut) / p.vix_width ≤ 0 :=
      div_nonpos_iff.2 (Or.inr ⟨by linarith, hw.le⟩)
    rw [gateFun, clip, max_eq_left (by linarith), min_eq_right (by linarith)]
  · have hq : 1 ≤ (v - p.vix_cut) / p.vix_width :=
      (one_le_div hw).2 (by linarith)
    rw [gateFun, clip, max_eq_right (by linarith), min_eq_left zero_le_one]
  · have hq : (v₁ - p.vix_cut) / p.vix_width ≤ (v₂ - p.vix_cut) / p.vix_width :=
      (div_le_div_iff_of_pos_right hw).2 (by linarith)
    rw [gateFun, gateFun, clip, clip]
    exact min_le_min (max_le_max (by linarith) le_rfl) le_rfl

/-- C5 witness: the theorem applied to the shipped parameters
(`vix_width = 10 > 0`) at the VIX level `30 ≤ vix_cut = 35`. -/
theorem vix_gate_shape_witness :
    0 < defaultParams.vix_width ∧ gateFun defaultParams 30 = 1 :=
  ⟨by norm_num [defaultParams],
   (vix_gate_shape defaultParams (by norm_num [defaultParams])).2.2.1 30
     (by norm_num [defaultParams])⟩

/-- The parameter record of `main` with `lev_cap` replaced by `-1`, an
invalid configuration per the spec. -/
noncomputable def negCapParams : Params := { defaultParams with lev_cap := -1 }

/-- C2 (amended): the script performs no configuration validation at all.
Its hardcoded literals happen to satisfy the constraints
(`vix_width = 10 ≠ 0`, `lookback_vol = 20 > 0`, `lev_cap = 1.3 ≥ 0`), and an
invalid configuration is not rejected: with `lev_cap = -1` the pipeline
silently computes the out-of-range weight `w t = -1` on every input (the
clip with crossed bounds returns the upper bound), instead of aborting. -/
theorem params_hardcoded_no_validation :
    defaultParams.vix_width = 10 ∧
    0 < defaultParams.lookback_vol ∧
    0 ≤ defaultParams.lev_cap ∧
    ∀ (f : Frame) (t : ℕ), w negCapParams f t = -1 := by
  refine ⟨by norm_num [defaultParams], by norm_num [defaultParams],
    by norm_num [defaultParams], fun f t => ?_⟩
  have hcap : negCapParams.lev_cap = -1 := rfl
  rw [w, clip, hcap, min_eq_right]
  exact le_trans (by norm_num) (le_max_right _ _)

/-- C2 counterexample: the claim says a negative `leverage_cap` is rejected
before any simulation runs; instead, with `lev_cap = -1` the simulation of
the concrete `testFrame` proceeds and silently produces the weight `-1`. -/
theorem negative_cap_not_rejected : w negCapParams testFrame 0 = -1 := by
  have hcap : negCapParams.lev_cap = -1 := rfl
  rw [w, clip, hcap, min_eq_right]
  exact le_trans (by norm_num) (le_max_right _ _)

/-- C3 (amended): on a date whose trailing `trend_window` is incomplete the
rolling mean is undefined, the pandas comparison against it is `False`, so
the row is assigned `trend_ok = 0` — hence composite weight `0` (for a
non-negative cap) — and stays in the simulated frame; it is not excluded. -/
theorem incomplete_window_zero_signal (p : Params) (f : Frame) (t : ℕ)
    (hcap : 0 ≤ p.lev_cap) (ht : t + 1 < p.sma_window) :
    trendOk p f t = 0 ∧ w p f t = 0 := by
  have htr : trendOk p f t = 0 := by
    rw [trendOk, if_neg]
    rintro ⟨h1, -⟩
    exact absurd h1 (not_le.2 ht)
  exact ⟨htr, by rw [w, htr, mul_zero, zero_mul, clip_zero hcap]⟩

/-- C3 witness: the amended theorem applied to the shipped parameters
(`sma_window = 20`), the concrete `testFrame` and the incomplete-window row
`t = 0`. -/
theorem incomplete_window_zero_signal_witness :
    (0 : ℕ) + 1 < defaultParams.sma_window ∧
    trendOk defaultParams testFrame 0 = 0 ∧
    w defaultParams testFrame 0 = 0 :=
  ⟨by norm_num [defaultParams],
   (incomplete_window_zero_signal defaultParams testFrame 0
      (by norm_num [defaultParams]) (by norm_num [defaultParams])).1,
   (incomplete_window_zero_signal defaultParams testFrame 0
      (by norm_num [defaultParams]) (by norm_num [defaultParams])).2⟩

/-- C3 counterexample: the claim says a row with an incomplete trailing
trend window has an undefined trend signal and is excluded from the
simulation.  On the concrete `testFrame`, row `0` has only one observation
in its 20-day window, yet it is assigned the defined value `trend_ok = 0`
and its strategy return is simulated (it equals the risk-free rate
`1 / 6300`), so the row is not excluded. -/
theorem incomplete_window_row_simulated :
    trendOk defaultParams testFrame 0 = 0 ∧
    stratRet defaultParams testFrame 0 = rfDaily testFrame 0 ∧
    rfDaily testFrame 0 = 1 / 6300 := by
  refine ⟨?_, testFrame_stratRet 0, testFrame_rf 0⟩
  rw [trendOk, if_neg]
  rintro ⟨h1, -⟩
  norm_num [defaultParams] at h1

/-! ## KPI helper lemmas -/

lemma listMin_le {l : List ℝ} {m : ℝ} (hm : listMin l = some m) :
    ∀ x ∈ l, m ≤ x := by
  induction l generalizing m with
  | nil => exact fun x hx => absurd hx (List.not_mem_nil x)
  | cons a l ih =>
    intro x hx
    rcases List.mem_cons.1 hx with rfl | hx2
    · cases h : listMin l with
      | none => rw [listMin, h] at hm; cases hm; exact le_refl _
      | some m2 => rw [listMin, h] at hm; cases hm; exact min_le_left _ _
    · cases h : listMin l with
      | none =>
        cases l with
        | nil => exact absurd hx2 (List.not_mem_nil x)
        | cons b l2 => rw [listMin] at h; cases hbl : listMin l2 <;>
            rw [hbl] at h <;> cases h
      | some m2 =>
        rw [listMin, h] at hm
        cases hm
        exact le_trans (min_le_right _ _) (ih h x hx2)

lemma sampleStd_nonneg {r : List ℝ} {s : ℝ} (h : sampleStd r = some s) :
    0 ≤ s := by
  by_cases hl : r.length < 2
  · rw [sampleStd, if_pos hl] at h; cases h
  · rw [sampleStd, if_neg hl] at h
    cases h
    exact Real.sqrt_nonneg _

lemma eqAt_all_zero {a : ℝ} {l : List ℝ} (h0 : eqAt (a :: l) 0 = 0) :
    ∀ i, eqAt (a :: l) i = 0 := by
  have ha : (1 : ℝ) + a = 0 := by
    have h := h0
    rw [eqAt, List.take_succ_cons, List.take_zero, growth] at h
    simpa using h
  intro i
  rw [eqAt, List.take_succ_cons, growth, List.map_cons, List.prod_cons, ha,
    zero_mul]

lemma runMax_all_zero {r : List ℝ} (h : ∀ i, eqAt r i = 0) :
    ∀ i, runMax r i = 0
  | 0 => by rw [runMax]; exact h 0
  | i + 1 => by rw [runMax, runMax_all_zero h i, h (i + 1), max_self]

/-- If the running-peak equity is never `0`, the drawdown at index `0` is the
defined value `0` and belongs to the drawdown list. -/
lemma ddAt_zero_of_ne {r : List ℝ} (h0 : eqAt r 0 ≠ 0) :
    ddAt r 0 = some 0 := by
  have hrm : runMax r 0 = eqAt r 0 := rfl
  rw [ddAt, hrm, if_neg h0, div_self h0, sub_self]

lemma maxDD_nonpos {r : List ℝ} {m : ℝ} (hne : r ≠ [])
    (hm : maxDD r = some m) : m ≤ 0 := by
  by_cases h0 : eqAt r 0 = 0
  · exfalso
    obtain ⟨a, l, rfl⟩ := List.exists_cons_of_ne_nil hne
    have hall := eqAt_all_zero h0
    have hdd : ddList (a :: l) = [] := by
      rw [ddList, List.filterMap_eq_nil_iff]
      intro i _
      rw [ddAt, if_pos (runMax_all_zero hall i)]
    rw [maxDD, hdd, listMin] at hm
    cases hm
  · have hmem : (0 : ℝ) ∈ ddList r :=
      List.mem_filterMap.2
        ⟨0, List.mem_range.2 (List.length_pos.2 hne), ddAt_zero_of_ne h0⟩
    exact listMin_le hm 0 hmem

lemma sharpeOf_eq {r : List ℝ} {s : ℝ} (rf : Option (List ℝ))
    (hs : sampleStd r = some s) :
    sharpeOf r rf =
      if 0 < s then some (mean (excess r rf) / s * Real.sqrt 252) else none := by
  rw [sharpeOf, hs, Option.some_bind]

lemma sharpeOf_none {r : List ℝ} (rf : Option (List ℝ))
    (hs : sampleStd r = none) : sharpeOf r rf = none := by
  rw [sharpeOf, hs, Option.none_bind]

lemma calmarOf_eq {r : List ℝ} {m : ℝ} (hm : maxDD r = some m) :
    calmarOf r = if m < 0 then (annRet r).map (fun a => a / |m|) else none := by
  rw [calmarOf, hm, Option.some_bind]

lemma calmarOf_none {r : List ℝ} (hm : maxDD r = none) : calmarOf r = none := by
  rw [calmarOf, hm, Option.none_bind]

lemma kpis_eq_some {r : List ℝ} (rf : Option (List ℝ)) (hne : r ≠ []) :
    kpis r rf = some
      ⟨annRet r, (sampleStd r).map (fun s => s * Real.sqrt 252),
        sharpeOf r rf, maxDD r, calmarOf r⟩ := by
  rw [kpis, if_neg (by simpa using hne)]

lemma sampleStd_singleton (x : ℝ) : sampleStd [x] = none := by
  rw [sampleStd, if_pos (by simp)]

lemma ddAt_neg_one : ddAt [(-1 : ℝ)] 0 = none := by
  have h0 : runMax [(-1 : ℝ)] 0 = 0 := by
    have h : runMax [(-1 : ℝ)] 0 = eqAt [(-1 : ℝ)] 0 := rfl
    rw [h, eqAt]
    norm_num [growth]
  rw [ddAt, if_pos h0]

lemma maxDD_neg_one : maxDD [(-1 : ℝ)] = none := by
  have hl : List.range ([(-1 : ℝ)].length) = [0] := rfl
  rw [maxDD, ddList, hl, List.filterMap_cons_none ddAt_neg_one,
    List.filterMap_nil, listMin]

/-- C8 (amended): in every KPI record (non-empty input series): Sharpe is
`NaN` exactly when the sample standard deviation of the series is not
strictly positive — either `0`, or itself `NaN` for a single observation —
and otherwise equals `mean (excess) / std * sqrt 252`; MaxDD is `≤ 0`
whenever it is defined, and is `NaN` exactly in the degenerate case where
every drawdown entry is the `NaN` quotient `0 / 0` (the running-peak equity
is `0`, e.g. an initial `-100 %` return); Calmar equals `CAGR / abs MaxDD`
when MaxDD is defined and `< 0`, and is `NaN` otherwise. -/
theorem kpi_record_policy (r : List ℝ) (rf : Option (List ℝ)) (hne : r ≠ []) :
    ∃ k : KPI, kpis r rf = some k ∧
      (∀ s, sampleStd r = some s →
        (k.sharpe = none ↔ s = 0) ∧
        (0 < s →
          k.sharpe = some (mean (excess r rf) / s * Real.sqrt 252))) ∧
      (sampleStd r = none → k.sharpe = none) ∧
      (∀ m, k.maxdd = some m → m ≤ 0) ∧
      (∀ m, k.maxdd = some m → m < 0 →
        k.calmar = Option.map (fun a => a / |m|) k.cagr) ∧
      (∀ m, k.maxdd = some m → 0 ≤ m → k.calmar = none) ∧
      (k.maxdd = none → k.calmar = none) := by
  refine ⟨_, kpis_eq_some rf hne, ?_, ?_, ?_, ?_, ?_, ?_⟩
  · intro s hs
    have h0 := sampleStd_nonneg hs
    dsimp only
    rw [sharpeOf_eq rf hs]
    refine ⟨⟨fun hnone => ?_, fun hs0 => ?_⟩, fun hpos => if_pos hpos⟩
    · by_contra hs0
      rw [if_pos (lt_of_le_of_ne h0 (Ne.symm hs0))] at hnone
      cases hnone
    · rw [if_neg (by rw [hs0]; exact lt_irrefl 0)]
  · intro hs
    dsimp only
    exact sharpeOf_none rf hs
  · intro m hm
    dsimp only at hm
    exact maxDD_nonpos hne hm
  · intro m hm hneg
    dsimp only at hm ⊢
    rw [calmarOf_eq hm, if_pos hneg]
  · intro m hm hge
    dsimp only at hm ⊢
    rw [calmarOf_eq hm, if_neg (not_lt.2 hge)]
  · intro hm
    dsimp only at hm ⊢
    exact calmarOf_none hm

/-- C8 witness: the amended theorem applied to the concrete one-element
series with return `1`. -/
theorem kpi_record_policy_witness :
    ∃ k : KPI, kpis [(1 : ℝ)] none = some k ∧
      (∀ m, k.maxdd = some m → m ≤ 0) := by
  obtain ⟨k, hk, -, -, hdd, -, -, -⟩ :=
    kpi_record_policy [(1 : ℝ)] none (by simp)
  exact ⟨k, hk, hdd⟩

/-- C8 counterexample: the claim as stated is false on two concrete inputs.
On the one-element series with return `1`, the record is produced with
Sharpe `NaN` although the standard deviation is not `0` (it is itself
undefined).  On the one-element series with return `-1`, MaxDD is `NaN`
(the single drawdown entry is `0 / 0`), so `MaxDD ≤ 0` fails. -/
theorem kpi_nan_edge_counterexample :
    (∃ k : KPI, kpis [(1 : ℝ)] none = some k ∧ k.sharpe = none) ∧
    sampleStd [(1 : ℝ)] ≠ some 0 ∧
    (∃ k : KPI, kpis [(-1 : ℝ)] none = some k ∧ k.maxdd = none ∧
      k.calmar = none) := by
  refine ⟨⟨_, kpis_eq_some none (by simp), ?_⟩, ?_,
    ⟨_, kpis_eq_some none (by simp), ?_, ?_⟩⟩
  · exact sharpeOf_none none (sampleStd_singleton 1)
  · rw [sampleStd_singleton]; simp
  · exact maxDD_neg_one
  · exact calmarOf_none maxDD_neg_one

/-- C9: the volatility-matched baseline uses the scale factor
`w_bh = clip (strat_vol / bh_vol) 0 3`, defaulting to `1` when the
buy-and-hold volatility is `0`, where the two volatilities are the
annualized sample volatilities of the simulated strategy-return series and
of buy-and-hold; its daily return is
`w_bh * r t + (1 - w_bh) * rf t` on every date. -/
theorem vol_matched_baseline (p : Params) (f : Frame) :
    (∀ t, bhVmRet p f t = wBh p f * ret f t + (1 - wBh p f) * rfDaily f t) ∧
    (∀ b s, bhVol f = some b → stratVolOf p f = some s →
      (0 < b → wBh p f = clip (s / b) 0 3) ∧ (b = 0 → wBh p f = 1)) := by
  refine ⟨fun t => rfl, fun b s hb hs => ?_⟩
  rw [wBh, hb, hs]
  constructor
  · intro hpos
    simp only [wBhAux]
    rw [if_pos hpos]
  · intro hb0
    simp only [wBhAux]
    rw [if_neg (by rw [hb0]; exact lt_irrefl 0)]

lemma sampleStd_pair (c : ℝ) : sampleStd [c, c] = some 0 := by
  have hm : mean [c, c] = c := by
    rw [mean]
    simp
  have hv : sampleVar [c, c] = 0 := by
    rw [sampleVar, hm]
    simp
  rw [sampleStd, if_neg (by simp), hv, Real.sqrt_zero]

lemma bhRetList_testFrame : bhRetList testFrame = [0, 0] := by
  have h2 : frameLen testFrame = 2 := rfl
  have hr : List.range 2 = [0, 1] := rfl
  rw [bhRetList, h2, hr]
  simp [testFrame_ret]

lemma stratRetList_testFrame :
    stratRetList defaultParams testFrame = [1 / 6300, 1 / 6300] := by
  have h2 : frameLen testFrame = 2 := rfl
  have hr : List.range 2 = [0, 1] := rfl
  have hsr : ∀ t, stratRet defaultParams testFrame t = 1 / 6300 :=
    fun t => (testFrame_stratRet t).trans (testFrame_rf t)
  rw [stratRetList, h2, hr]
  simp [hsr]

lemma bhVol_testFrame : bhVol testFrame = some 0 := by
  rw [bhVol, bhRetList_testFrame, sampleStd_pair]
  simp

lemma stratVol_testFrame : stratVolOf defaultParams testFrame = some 0 := by
  rw [stratVolOf, stratRetList_testFrame, sampleStd_pair]
  simp

/-- C9 witness: the theorem applied to the shipped parameters and the
constant-price `testFrame`, whose buy-and-hold volatility is `0`, so the
scale factor defaults to `1`. -/
theorem vol_matched_baseline_witness :
    bhVol testFrame = some 0 ∧ wBh defaultParams testFrame = 1 :=
  ⟨bhVol_testFrame,
   ((vol_matched_baseline defaultParams testFrame).2 0 0 bhVol_testFrame
      stratVol_testFrame).2 rfl⟩

/-- C10: on an empty return series `kpis` produces no KPI record at all —
the exponent `252 / len r` divides by the observation count `0` and the
computation fails (`ZeroDivisionError`, modelled as `none`) — and on every
non-empty series the five-metric record is produced. -/
theorem kpis_empty_fails :
    (∀ rf, kpis ([] : List ℝ) rf = none) ∧
    (∀ (r : List ℝ) (rf : Option (List ℝ)), r ≠ [] → (kpis r rf).isSome) := by
  constructor
  · intro rf
    rw [kpis]
    simp
  · intro r rf hne
    rw [kpis_eq_some rf hne]
    rfl

/-- C10 witness: the theorem applied to the concrete non-empty series with
return `1`. -/
theorem kpis_empty_fails_witness :
    ([(1 : ℝ)] ≠ []) ∧ (kpis [(1 : ℝ)] none).isSome :=
  ⟨by simp, kpis_empty_fails.2 [1] none (by simp)⟩

end VolTarget
